import Mathlib

/-
Verification of the GOCAD model-file parser (`scripts/gocad_vessel.py`).

The Python source is shallowly embedded below.  Conventions:

* Python floats are modelled as exact rationals (`ℚ`).  The parser never
  performs float arithmetic that the claims depend on beyond sign, equality
  and min/max, so exact rationals are a faithful carrier.  `sys.float_info.max`
  is the exact rational `(2^53 - 1) * 2^971`.
* `sys.exit(1)` (and an uncaught exception, which equally terminates the
  process) is modelled by the `Exc.exit` outcome.
* Python `dict`s are modelled as insertion-ordered association lists:
  assignment to an existing key overwrites in place, a new key is appended.
* `float(s)` / `int(s)` are modelled for plain decimal literals
  (optional sign, digits, optional fractional part); scientific notation and
  exotic spellings are not needed by any claim and parse to `none`.
-/

namespace Gocad

/-- Process-level outcome of a piece of code that may call `sys.exit(1)` or
let an exception escape: either a value, or process termination. -/
inductive Exc (α : Type) where
  | ok (a : α)
  | exit
deriving DecidableEq

/-- Map over the value of a non-terminating outcome. -/
def Exc.map {α β : Type} (f : α → β) : Exc α → Exc β
  | .ok a => .ok (f a)
  | .exit => .exit

/-- Runtime configuration of `GOCAD_VESSEL` relevant to `__handle_exc`:
`STOP_ON_EXC` (constructor argument `stop_on_exc`, default `True`) and
whether the logger's effective level is `logging.DEBUG`. -/
structure Config where
  stopOnExc : Bool
  debugLvl : Bool
deriving DecidableEq

/-- Embeds `GOCAD_VESSEL.__handle_exc` (gocad_vessel.py lines 273-287): the
handler calls `sys.exit(1)` whenever the logger is at DEBUG level or
`STOP_ON_EXC` is set; otherwise it does nothing and control continues. -/
def handleExcFatal (cfg : Config) : Bool :=
  cfg.debugLvl || cfg.stopOnExc

/-- Exact rational value of Python's `sys.float_info.max`,
the largest finite IEEE-754 double, `(2^53 - 1) * 2^971`.
(Concrete rationals are built with `mkRat` throughout so that they reduce
inside the kernel.) -/
def floatMax : ℚ := mkRat ((2 ^ 53 - 1) * 2 ^ 971) 1

/-- Exact rational multiplication written with `mkRat` so that concrete
instances compute; `ratMul_eq` below shows it is ordinary multiplication. -/
def ratMul (a b : ℚ) : ℚ := mkRat (a.num * b.num) (a.den * b.den)

/-- Sanity: `ratMul` is multiplication on `ℚ`. -/
theorem ratMul_eq (a b : ℚ) : ratMul a b = a * b := by
  rw [ratMul, Rat.mkRat_eq_divInt, Rat.divInt_eq_div]
  push_cast
  rw [← div_mul_div_comm, Rat.num_div_den, Rat.num_div_den]

/-- Decimal digit value of a character, `none` for a non-digit. -/
def digitVal (c : Char) : Option ℕ :=
  if c.isDigit then some (c.toNat - 48) else none

/-- Value of a digit string (most significant first); `none` if any
character is not a decimal digit. -/
def digitsVal (cs : List Char) : Option ℕ :=
  cs.foldl
    (fun acc c =>
      match acc, digitVal c with
      | some a, some d => some (10 * a + d)
      | _, _ => none)
    (some 0)

/-- Python `float(s)` on plain decimal literals, as an exact rational:
optional sign, integer digits, optional `.` and fractional digits.
Tokens outside this subset (scientific notation, `inf`, `nan`, …) are
modelled as unparseable; no claim depends on them. -/
def pyFloatOfString (s : String) : Option ℚ :=
  let (neg, rest) : Bool × List Char :=
    match s.data with
    | '-' :: t => (true, t)
    | '+' :: t => (false, t)
    | t => (false, t)
  match rest.splitOn '.' with
  | [ip] =>
    if ip.isEmpty then none
    else (digitsVal ip).map (fun n => if neg then -(mkRat n 1) else mkRat n 1)
  | [ip, fp] =>
    if ip.isEmpty && fp.isEmpty then none
    else
      match digitsVal ip, digitsVal fp with
      | some i, some f =>
        let q : ℚ := mkRat (i * 10 ^ fp.length + f) (10 ^ fp.length)
        some (if neg then -q else q)
      | _, _ => none
  | _ => none

/-- Python `int(s)`: optional sign followed by decimal digits. -/
def pyIntOfString (s : String) : Option ℤ :=
  let (neg, rest) : Bool × List Char :=
    match s.data with
    | '-' :: t => (true, t)
    | '+' :: t => (false, t)
    | t => (false, t)
  if rest.isEmpty then none
  else (digitsVal rest).map (fun n => if neg then -(n : ℤ) else (n : ℤ))

/-- Embeds `GOCAD_VESSEL.__parse_float` (gocad_vessel.py lines 1003-1024)
for string arguments.  The infinity spellings `1.#INF` / `INF` /
`-1.#INF` / `-INF` are recognised first and mapped to `±floatMax` with no
no-data comparison; an ordinarily converted value equal to a configured
`null_val` yields `(False, null_val)`; an unconvertible token reaches
`__handle_exc` (process exit when fatal) and otherwise yields
`(False, 0.0)`. -/
def parseFloat (cfg : Config) (fp_str : String) (null_val : Option ℚ) :
    Exc (Bool × ℚ) :=
  if fp_str = "1.#INF" ∨ fp_str = "INF" then .ok (true, floatMax)
  else if fp_str = "-1.#INF" ∨ fp_str = "-INF" then .ok (true, -floatMax)
  else
    match pyFloatOfString fp_str with
    | some fp =>
      match null_val with
      | some nv => if fp = nv then .ok (false, nv) else .ok (true, fp)
      | none => .ok (true, fp)
    | none => if handleExcFatal cfg then .exit else .ok (false, 0)

/-- Embeds `GOCAD_VESSEL.__parse_int` (gocad_vessel.py lines 1027-1039). -/
def parseInt (cfg : Config) (int_str : String) : Exc (Bool × Option ℤ) :=
  match pyIntOfString int_str with
  | some n => .ok (true, some n)
  | none => if handleExcFatal cfg then .exit else .ok (false, none)

/-- Python `dict` assignment `d[k] = v`: overwrite in place if the key is
present, otherwise append (insertion order preserved). -/
def dictSet {κ α : Type} [DecidableEq κ] (l : List (κ × α)) (k : κ) (v : α) :
    List (κ × α) :=
  if l.any (fun p => p.1 = k) then
    l.map (fun p => if p.1 = k then (k, v) else p)
  else l ++ [(k, v)]

/-- Python `dict` lookup `d.get(k)`. -/
def dictGet {κ α : Type} [DecidableEq κ] (l : List (κ × α)) (k : κ) :
    Option α :=
  (l.find? (fun p => p.1 = k)).map (fun p => p.2)

/-- A scalar or 3-vector property value (`__parse_props` stores either a
float or an (x,y,z) float triple per coordinate). -/
inductive PropVal where
  | s (v : ℚ)
  | v3 (x y z : ℚ)
deriving DecidableEq

/-- Embeds the `PROPS` class (gocad_vessel.py lines 12-59) restricted to the
fields the point-attached-property claims read: `class_name`, `data_sz`,
`no_data_marker` and the coordinate-keyed `data` dict.  The binary-file
fields (`file_name`, `data_type`, `signed_int`, colour-map fields) feed only
the voxel reader, which is modelled below with those fields passed as
explicit arguments. -/
structure PROPS where
  class_name : String
  data_sz : ℤ
  no_data_marker : Option ℚ
  data : List ((ℚ × ℚ × ℚ) × PropVal)
deriving DecidableEq

/-- A fresh `PROPS(class_name)` object: `data_sz` starts at 0, no no-data
marker, empty data dict. -/
def initPROPS (class_name : String) : PROPS :=
  { class_name := class_name, data_sz := 0, no_data_marker := none, data := [] }

/-- Outcome of `__parse_props`: normal return, an `IndexError` escaping the
call (the in-place mutations made before the raise persist, hence the
carried property list), or process exit from inside. -/
inductive PPRes where
  | ok (props : List (String × PROPS))
  | idxErr (props : List (String × PROPS))
  | exit
deriving DecidableEq

/-- Prepend an already-processed property to a `__parse_props` outcome. -/
def ppCons (x : String × PROPS) : PPRes → PPRes
  | .ok r => .ok (x :: r)
  | .idxErr r => .idxErr (x :: r)
  | .exit => .exit

/-- Loop body of `GOCAD_VESSEL.__parse_props` (gocad_vessel.py lines
968-1000): iterate over `local_props` in order with a running column index;
a `data_sz` of 1 consumes one token, 3 consumes three, anything else is
`sys.exit(1)`; a leading `CN*` control-node token is skipped; a token whose
value converts (and is not the property's no-data marker) is stored in the
property's coordinate-keyed `data` dict. -/
def parsePropsGo (cfg : Config) (arr : List String) (coord : ℚ × ℚ × ℚ) :
    List (String × PROPS) → ℕ → PPRes
  | [], _ => .ok []
  | (nm, p) :: rest, col_idx =>
    if p.data_sz = 1 then
      match arr[col_idx]? with
      | none => .idxErr ((nm, p) :: rest)
      | some fp_str0 =>
        let col1 := if fp_str0.take 2 = "CN" then col_idx + 1 else col_idx
        match arr[col1]? with
        | none => .idxErr ((nm, p) :: rest)
        | some fp_str =>
          match parseFloat cfg fp_str p.no_data_marker with
          | .exit => .exit
          | .ok (converted, fp) =>
            let p1 := if converted
              then { p with data := dictSet p.data coord (.s fp) } else p
            ppCons (nm, p1) (parsePropsGo cfg arr coord rest (col1 + 1))
    else if p.data_sz = 3 then
      match arr[col_idx]? with
      | none => .idxErr ((nm, p) :: rest)
      | some fp_strX0 =>
        let col1 := if fp_strX0.take 2 = "CN" then col_idx + 1 else col_idx
        match arr[col1]?, arr[col1 + 1]?, arr[col1 + 2]? with
        | some fp_strX, some fp_strY, some fp_strZ =>
          match parseFloat cfg fp_strX p.no_data_marker,
                parseFloat cfg fp_strY p.no_data_marker,
                parseFloat cfg fp_strZ p.no_data_marker with
          | .ok (cX, fpX), .ok (cY, fpY), .ok (cZ, fpZ) =>
            let p1 := if cZ && cY && cX
              then { p with data := dictSet p.data coord (.v3 fpX fpY fpZ) }
              else p
            ppCons (nm, p1) (parsePropsGo cfg arr coord rest (col1 + 3))
          | _, _, _ => .exit
        | _, _, _ => .idxErr ((nm, p) :: rest)
    else .exit

/-- Embeds `GOCAD_VESSEL.__parse_props` (gocad_vessel.py lines 955-1000):
properties start at the 4th column for `PATOM` lines and at the 6th column
for `PVRTX` lines. -/
def parseProps (cfg : Config) (arr : List String) (coord : ℚ × ℚ × ℚ)
    (is_patom : Bool) (props : List (String × PROPS)) : PPRes :=
  parsePropsGo cfg arr coord props (if is_patom then 3 else 5)

/-- First component of a property value — `process_gocad` computes property
statistics as `x if type(x) is float else x[0]` (gocad_vessel.py line 763). -/
def firstVal : PropVal → ℚ
  | .s v => v
  | .v3 x _ _ => x

/-- Embeds the `data_stats` computation of `process_gocad` (gocad_vessel.py
lines 758-765): `(min, max)` of the first components of the values recorded
in a property's `data` dict, `(float_info.max, -float_info.max)` when the
dict is empty. -/
def dataStats (data : List ((ℚ × ℚ × ℚ) × PropVal)) : ℚ × ℚ :=
  match data.map (fun kv => firstVal kv.2) with
  | [] => (floatMax, -floatMax)
  | v :: vs => (vs.foldl min v, vs.foldl max v)

/-- Modelled from the spec: the `VRTX` record of the geometry base class
`MODEL_GEOMETRIES` (module `model_geometries`, not under src/): §3 "Vertex:
sequence number …, (x,y,z) position"; field names follow the uses `v.n` and
`.xyz` in gocad_vessel.py. -/
structure VRTX where
  n : ℤ
  xyz : ℚ × ℚ × ℚ
deriving DecidableEq

/-- Modelled from the spec: the `ATOM` record of `MODEL_GEOMETRIES` (not
under src/): §3 "Atom: sequence number + reference to an existing vertex's
sequence number"; field names follow the uses `atom.n` / `atom.v`. -/
structure ATOM where
  n : ℤ
  v : ℤ
deriving DecidableEq

/-- Modelled from the spec: the `TRGL` record of `MODEL_GEOMETRIES` (not
under src/): §3 "Triangle: sequence number + three integer
vertex-sequence-number references". -/
structure TRGL where
  n : ℤ
  abc : ℤ × ℤ × ℤ
deriving DecidableEq

/-- Modelled from the spec: the `SEG` record of `MODEL_GEOMETRIES` (not
under src/): §3 "Segment: sequence number + two integer
vertex-sequence-number references". -/
structure SEG where
  n : ℤ
  ab : ℤ × ℤ
deriving DecidableEq

/-- The mutable parse-session state read and written by the modelled
branches of `process_gocad`: the running sequence counter and its saved
previous value (gocad_vessel.py lines 352-354), the ordered vertex / atom /
triangle / segment stores and the point-attached property table, the
z-inversion flag and the per-axis unit multipliers.  Fields of
`GOCAD_VESSEL` touched only by branches outside the modelled subset
(header names, voxel axis metadata, binary-file property metadata, flags
metadata) are not part of this record; the header-colour branch and the
voxel binary reader are modelled separately below. -/
structure State where
  seq_no : ℤ
  seq_no_prev : ℤ
  vrtx_arr : List VRTX
  atom_arr : List ATOM
  trgl_arr : List TRGL
  seg_arr : List SEG
  local_props : List (String × PROPS)
  invert_zaxis : Bool
  xyz_mult : ℚ × ℚ × ℚ
deriving DecidableEq

/-- State at the top of `process_gocad` (gocad_vessel.py lines 352-354 and
the `__init__` defaults): `seq_no = 0`, `seq_no_prev = -1`, empty stores,
multipliers 1.0. -/
def initState : State :=
  { seq_no := 0, seq_no_prev := -1, vrtx_arr := [], atom_arr := [],
    trgl_arr := [], seg_arr := [], local_props := [],
    invert_zaxis := false, xyz_mult := (mkRat 1 1, mkRat 1 1, mkRat 1 1) }

/-- Modelled from the spec: `MODEL_GEOMETRIES._check_vertex` (not under
src/), the guard used by the ATOM/PATOM branch: §3 "Invariant: the
referenced vertex must already exist in the Coordinate Store when the atom
is parsed" — i.e. some already-parsed vertex carries the referenced
sequence number. -/
def checkVertex (vrtx_arr : List VRTX) (v : ℤ) : Bool :=
  vrtx_arr.any (fun vr => vr.n = v)

/-- Embeds `GOCAD_VESSEL.make_vertex_dict` (gocad_vessel.py lines 302-323):
maps each vertex's sequence number to its 1-based insertion position, then
maps each atom's sequence number to the 1-based position of the first
vertex whose sequence number the atom references (no entry if the reference
dangles). -/
def make_vertex_dict (vrtx_arr : List VRTX) (atom_arr : List ATOM) :
    List (ℤ × ℕ) :=
  let d1 :=
    (vrtx_arr.foldl
      (fun (acc : List (ℤ × ℕ) × ℕ) v => (dictSet acc.1 v.n acc.2, acc.2 + 1))
      ([], 1)).1
  atom_arr.foldl
    (fun d atom =>
      match vrtx_arr.findIdx? (fun vert => vert.n = atom.v) with
      | some i => dictSet d atom.n (i + 1)
      | none => d)
    d1

/-- Embeds the float branch of `GOCAD_VESSEL.__parse_XYZ` (gocad_vessel.py
lines 1042-1077): parse the three tokens with `__parse_float`; if any fails
to convert the whole call reports failure (`none`); on success the
kilometre multipliers are applied when `convert` is set.  The
`do_minmax` extent bookkeeping lives in the geometry base class and is not
read by any claim, so it is not modelled. -/
def parseXYZfloat (cfg : Config) (mult : ℚ × ℚ × ℚ) (x_str y_str z_str : String)
    (convert : Bool) : Exc (Option (ℚ × ℚ × ℚ)) :=
  match parseFloat cfg x_str none, parseFloat cfg y_str none,
        parseFloat cfg z_str none with
  | .ok (c1, x), .ok (c2, y), .ok (c3, z) =>
    if c1 && c2 && c3 then
      if convert then
        .ok (some (ratMul x mult.1, ratMul y mult.2.1, ratMul z mult.2.2))
      else .ok (some (x, y, z))
    else .ok none
  | _, _, _ => .exit

/-- Embeds the integer branch of `GOCAD_VESSEL.__parse_XYZ` (gocad_vessel.py
lines 1058-1065): `int()` of each token inside one `try`; a failure is
routed through `__handle_exc` (process exit when fatal) and otherwise
reports failure.  The kilometre conversion only applies to floats. -/
def parseXYZint (cfg : Config) (x_str y_str z_str : String) :
    Exc (Option (ℤ × ℤ × ℤ)) :=
  match pyIntOfString x_str, pyIntOfString y_str, pyIntOfString z_str with
  | some x, some y, some z => .ok (some (x, y, z))
  | _, _, _ => if handleExcFatal cfg then .exit else .ok none

/-- Embeds the ATOM/PATOM branch of `process_gocad` (gocad_vessel.py lines
554-578).  `seq_no_prev` is saved first; failure of either `int()` reaches
`__handle_exc` and restores `seq_no`.  A reference to a vertex not yet
parsed is `sys.exit(1)`.  For `PATOM` the anchor coordinate is
`self._vrtx_arr[vert_dict[v_num]].xyz` — the 1-based `make_vertex_dict`
position used directly as a 0-based list index; an out-of-range index is an
`IndexError` caught at line 577 and routed through `__handle_exc`, and a
missing dict key would be an uncaught `KeyError` (process abort), though it
cannot occur once `_check_vertex` has succeeded. -/
def atomBranch (cfg : Config) (s : State) (arr : List String) : Exc State :=
  let prev := s.seq_no
  match arr[1]?.bind pyIntOfString, arr[2]?.bind pyIntOfString with
  | some sn, some vn =>
    let s1 := { s with seq_no_prev := prev, seq_no := sn }
    if checkVertex s1.vrtx_arr vn then
      let s2 := { s1 with atom_arr := s1.atom_arr ++ [⟨sn, vn⟩] }
      if arr.head? = some "PATOM" then
        match dictGet (make_vertex_dict s2.vrtx_arr s2.atom_arr) vn with
        | some idx =>
          match s2.vrtx_arr[idx]? with
          | some vert =>
            match parseProps cfg arr vert.xyz true s2.local_props with
            | .ok lp => .ok { s2 with local_props := lp }
            | .idxErr lp =>
              if handleExcFatal cfg then .exit
              else .ok { s2 with local_props := lp }
            | .exit => .exit
          | none => if handleExcFatal cfg then .exit else .ok s2
        | none => .exit
      else .ok s2
    else .exit
  | _, _ =>
    if handleExcFatal cfg then .exit else .ok { s with seq_no_prev := prev }

/-- Embeds the PVRTX/VRTX branch of `process_gocad` (gocad_vessel.py lines
581-599): parse the sequence number and the three coordinates; on success
apply z-inversion, append the vertex, and for `PVRTX` parse the trailing
properties anchored at the (inverted) vertex position.  An exception from
`int()` or from accessing the coordinate tokens restores `seq_no`; an
`IndexError` escaping `__parse_props` here is uncaught and aborts the
process. -/
def vrtxBranch (cfg : Config) (s : State) (arr : List String) : Exc State :=
  let prev := s.seq_no
  match arr[1]?.bind pyIntOfString with
  | none =>
    if handleExcFatal cfg then .exit else .ok { s with seq_no_prev := prev }
  | some sn =>
    match arr[2]?, arr[3]?, arr[4]? with
    | some xs, some ys, some zs =>
      match parseXYZfloat cfg s.xyz_mult xs ys zs true with
      | .exit => .exit
      | .ok none => .ok { s with seq_no_prev := prev, seq_no := sn }
      | .ok (some (x, y, z)) =>
        let z1 := if s.invert_zaxis then -z else z
        let s2 := { s with seq_no_prev := prev, seq_no := sn,
                           vrtx_arr := s.vrtx_arr ++ [⟨sn, (x, y, z1)⟩] }
        if arr.head? = some "PVRTX" then
          match parseProps cfg arr (x, y, z1) false s2.local_props with
          | .ok lp => .ok { s2 with local_props := lp }
          | .idxErr _ => .exit
          | .exit => .exit
        else .ok s2
    | _, _, _ =>
      if handleExcFatal cfg then .exit else .ok { s with seq_no_prev := prev }

/-- Embeds the TRGL branch of `process_gocad` (gocad_vessel.py lines
602-612): note the first vertex reference is the same token as the
sequence number (`splitstr_arr[1]` is passed both to `int()` and as the
first argument of `__parse_XYZ`). -/
def trglBranch (cfg : Config) (s : State) (arr : List String) : Exc State :=
  let prev := s.seq_no
  match arr[1]?.bind pyIntOfString with
  | none =>
    if handleExcFatal cfg then .exit else .ok { s with seq_no_prev := prev }
  | some sn =>
    match arr[1]?, arr[2]?, arr[3]? with
    | some ta, some tb, some tc =>
      match parseXYZint cfg ta tb tc with
      | .exit => .exit
      | .ok none => .ok { s with seq_no_prev := prev, seq_no := sn }
      | .ok (some (a, b, c)) =>
        .ok { s with seq_no_prev := prev, seq_no := sn,
                     trgl_arr := s.trgl_arr ++ [⟨sn, (a, b, c)⟩] }
    | _, _, _ =>
      if handleExcFatal cfg then .exit else .ok { s with seq_no_prev := prev }

/-- Embeds the SEG branch of `process_gocad` (gocad_vessel.py lines
615-623): the two vertex references are parsed, but no sequence number is
read from the line — the appended record carries the current running
`seq_no`.  On a parse failure `__handle_exc` runs and then `seq_no` is
overwritten with `seq_no_prev` (which the SEG branch itself never saved). -/
def segBranch (cfg : Config) (s : State) (arr : List String) : Exc State :=
  match arr[1]?.bind pyIntOfString, arr[2]?.bind pyIntOfString with
  | some a, some b =>
    .ok { s with seg_arr := s.seg_arr ++ [⟨s.seq_no, (a, b)⟩] }
  | _, _ =>
    if handleExcFatal cfg then .exit
    else .ok { s with seq_no := s.seq_no_prev }

/-- Embeds the ESIZES branch (gocad_vessel.py lines 529-537): positionally
assign `int(splitstr_arr[idx])` to each declared property's `data_sz`,
starting at column 1; a per-item conversion or index error goes through
`__handle_exc` and the loop continues. -/
def esizesGo (cfg : Config) (arr : List String) :
    List (String × PROPS) → ℕ → Exc (List (String × PROPS))
  | [], _ => .ok []
  | (nm, p) :: rest, idx =>
    match arr[idx]?.bind pyIntOfString with
    | some v =>
      (esizesGo cfg arr rest (idx + 1)).map
        (fun r => (nm, { p with data_sz := v }) :: r)
    | none =>
      if handleExcFatal cfg then .exit
      else (esizesGo cfg arr rest (idx + 1)).map (fun r => (nm, p) :: r)

/-- Embeds the NO_DATA_VALUES branch (gocad_vessel.py lines 540-551):
positionally parse a no-data float for each declared property with
`__parse_float` (no marker yet); only a converted value is recorded; a
missing column is an `IndexError` through `__handle_exc` and the loop
continues. -/
def noDataValuesGo (cfg : Config) (arr : List String) :
    List (String × PROPS) → ℕ → Exc (List (String × PROPS))
  | [], _ => .ok []
  | (nm, p) :: rest, idx =>
    match arr[idx]? with
    | some tok =>
      match parseFloat cfg tok none with
      | .exit => .exit
      | .ok (converted, fp) =>
        let p1 := if converted then { p with no_data_marker := some fp } else p
        (noDataValuesGo cfg arr rest (idx + 1)).map (fun r => (nm, p1) :: r)
    | none =>
      if handleExcFatal cfg then .exit
      else (noDataValuesGo cfg arr rest (idx + 1)).map (fun r => (nm, p) :: r)

/-- Structural keywords skipped by `process_gocad` (gocad_vessel.py lines
383-391). -/
def skipKeywords : List String :=
  ["SUBVSET", "ILINE", "TFACE", "TVOLUME", "CNP"]

/-- Embeds one iteration of the `process_gocad` text loop (gocad_vessel.py
lines 358-752) over an already-tokenised, upper-cased line, for the
top-level data keywords the claims concern (no header / coordinate-system /
property-class context active).  Keywords whose branches only touch fields
outside the modelled `State` (AXIS_*, PROP_*, FLAGS_*, REGION, context
toggles) leave the state unchanged here; the header colour branch and the
voxel binary reader are modelled by `headerColour` and
`read_voxel_prop` / `read_flags_file` below. -/
def processLine (cfg : Config) (s : State) (arr : List String) : Exc State :=
  match arr.head? with
  | none => .ok s
  | some kw =>
    if kw ∈ skipKeywords then .ok s
    else if kw = "PROPERTIES" ∨ kw = "PROPERTY_CLASSES" then
      if s.local_props.isEmpty then
        .ok { s with local_props :=
          (arr.drop 1).foldl (fun d cn => dictSet d cn (initPROPS cn)) [] }
      else .ok s
    else if kw = "ESIZES" then
      (esizesGo cfg arr s.local_props 1).map (fun lp => { s with local_props := lp })
    else if kw = "NO_DATA_VALUES" then
      (noDataValuesGo cfg arr s.local_props 1).map
        (fun lp => { s with local_props := lp })
    else if kw = "ATOM" ∨ kw = "PATOM" then atomBranch cfg s arr
    else if kw = "PVRTX" ∨ kw = "VRTX" then vrtxBranch cfg s arr
    else if kw = "TRGL" then trglBranch cfg s arr
    else if kw = "SEG" then segBranch cfg s arr
    else .ok s

/-- Runs the `process_gocad` text loop over a list of tokenised lines,
stopping at a process exit. -/
def runLines (cfg : Config) : State → List (List String) → Exc State
  | s, [] => .ok s
  | s, l :: ls =>
    match processLine cfg s l with
    | .ok s1 => runLines cfg s1 ls
    | .exit => .exit

/-- An RGBA colour as four rationals. -/
abbrev Rgba : Type := ℚ × ℚ × ℚ × ℚ

/-- Opaque white, the fallback assigned in the colour exception handler
(gocad_vessel.py line 493). -/
def whiteRgba : Rgba := (mkRat 1 1, mkRat 1 1, mkRat 1 1, mkRat 1 1)

/-- The colour exception path (gocad_vessel.py lines 491-493): the caught
`ValueError` / `OverflowError` / `IndexError` first runs `__handle_exc` —
which terminates the process when `STOP_ON_EXC` or DEBUG logging is active —
and only otherwise falls through to the opaque-white assignment. -/
def colourExc (cfg : Config) : Exc (Option Rgba) :=
  if handleExcFatal cfg then .exit else .ok (some whiteRgba)

/-- Value of a hexadecimal digit character. -/
def hexDigitVal (c : Char) : Option ℕ :=
  if c.isDigit then some (c.toNat - 48)
  else if 'A' ≤ c ∧ c ≤ 'F' then some (c.toNat - 55)
  else if 'a' ≤ c ∧ c ≤ 'f' then some (c.toNat - 87)
  else none

/-- Python `int(s, 16)` on a list of characters: nonempty, all hex digits
(signs and underscores, which Python would also accept, are outside the
colour strings any claim exercises and parse to `none`). -/
def hexVal (cs : List Char) : Option ℕ :=
  if cs.isEmpty then none
  else
    cs.foldl
      (fun acc c =>
        match acc, hexDigitVal c with
        | some a, some d => some (16 * a + d)
        | _, _ => none)
      (some 0)

/-- Python string slice `s[a:b]` as a character list (slicing never raises;
a short string yields a short slice). -/
def strSlice (s : String) (a b : ℕ) : List Char :=
  (s.data.drop a).take (b - a)

/-- Split a character list at every occurrence of `c` (the separator is
dropped; empty segments are kept, as with Python `str.split(' ')`). -/
def splitOnChar (c : Char) : List Char → List (List Char)
  | [] => [[]]
  | x :: xs =>
    match splitOnChar c xs with
    | [] => [[]]
    | h :: t => if x = c then [] :: h :: t else (x :: h) :: t

/-- Python `str.split(' ')` (single-space separator, empty runs preserved),
as used on colour values (gocad_vessel.py line 482). -/
def pySplit (s : String) (c : Char) : List String :=
  (splitOnChar c s.data).map (fun cs => String.mk cs)

/-- First character of a string (only used on nonempty strings —
`value_str[0]` on an empty string raises, which the callers model
separately). -/
def pyFront (s : String) : Char :=
  s.data.headD 'A'

/-- Python `str.strip()` restricted to spaces, the only whitespace inside a
tokenised header line. -/
def pyStrip (s : String) : String :=
  String.mk
    (((s.data.dropWhile (fun ch => ch = ' ')).reverse.dropWhile
        (fun ch => ch = ' ')).reverse)

/-- Embeds the `*SOLID*COLOR` / `*ATOMS*COLOR` header branch of
`process_gocad` (gocad_vessel.py lines 478-495) as a function of the
stripped value string and the current `rgba_tup` (`none` = the inherited
default, untouched so far).  A value not starting with `#` is split on
single spaces: exactly 3 or 4 float tokens set the colour (alpha defaults
to 1.0); any other token count only logs a debug message and leaves the
colour unchanged; a float conversion error, a bad or short hex string, or
an empty value raises into the exception path `colourExc`. -/
def headerColour (cfg : Config) (value_str : String) (cur : Option Rgba) :
    Exc (Option Rgba) :=
  if value_str = "" then colourExc cfg
  else if pyFront value_str ≠ '#' then
    let parts := pySplit value_str ' '
    if parts.length = 3 then
      match pyFloatOfString (parts.getD 0 ""), pyFloatOfString (parts.getD 1 ""),
            pyFloatOfString (parts.getD 2 "") with
      | some r, some g, some b => .ok (some (r, g, b, mkRat 1 1))
      | _, _, _ => colourExc cfg
    else if parts.length = 4 then
      match pyFloatOfString (parts.getD 0 ""), pyFloatOfString (parts.getD 1 ""),
            pyFloatOfString (parts.getD 2 ""), pyFloatOfString (parts.getD 3 "") with
      | some r, some g, some b, some a => .ok (some (r, g, b, a))
      | _, _, _, _ => colourExc cfg
    else .ok cur
  else
    match hexVal (strSlice value_str 1 3), hexVal (strSlice value_str 3 5),
          hexVal (strSlice value_str 5 7) with
    | some r, some g, some b =>
      .ok (some (mkRat r 255, mkRat g 255, mkRat b 255, mkRat 1 1))
    | _, _, _ => colourExc cfg

/-- Split a character list at the first occurrence of `c`; if `c` does not
occur the second component is empty, matching Python `str.partition`. -/
def partitionChars (c : Char) : List Char → List Char × List Char
  | [] => ([], [])
  | x :: xs =>
    if x = c then ([], xs)
    else
      let r := partitionChars c xs
      (x :: r.1, r.2)

/-- Python `str.partition(c)` (part before the first separator and part
after it), as used on header lines (gocad_vessel.py line 474). -/
def pyPartition (s : String) (c : Char) : String × String :=
  let p := partitionChars c s.data
  (String.mk p.1, String.mk p.2)

/-- Embeds the in-header dispatch of `process_gocad` (gocad_vessel.py lines
473-499) for colour keys: partition the line at the first `:`, strip both
sides, and run the colour parser when the name is `*SOLID*COLOR` or
`*ATOMS*COLOR`; other header names leave the colour untouched (the `NAME`
branch sets the display name, which no claim reads). -/
def processHeaderLine (cfg : Config) (line_str : String) (cur : Option Rgba) :
    Exc (Option Rgba) :=
  let nv := pyPartition line_str ':'
  let name_str := pyStrip nv.1
  let value_str := pyStrip nv.2
  if name_str = "*SOLID*COLOR" ∨ name_str = "*ATOMS*COLOR" then
    headerColour cfg value_str cur
  else .ok cur

/-- The numeric overload of `__parse_float` (gocad_vessel.py lines
1003-1024) as called from the voxel loop on an element already decoded from
the binary file: the infinity-string tests are vacuous for numbers,
`float(v)` succeeds, and only the no-data comparison remains. -/
def parseFloatVal (v : ℚ) (null_val : Option ℚ) : Bool × ℚ :=
  match null_val with
  | some nv => if v = nv then (false, nv) else (true, v)
  | none => (true, v)

/-- Cell traversal order of the voxel loops (gocad_vessel.py lines 872-874
and 923-925): `z` outermost, then `y`, then `x`, so the flat file index
advances with `x` fastest. -/
def cellOrder (dims : ℕ × ℕ × ℕ) : List (ℕ × ℕ × ℕ) :=
  (List.range dims.2.2).flatMap (fun z =>
    (List.range dims.2.1).flatMap (fun y =>
      (List.range dims.1).map (fun x => (x, y, z))))

/-- The populated 3-D array of one voxel property plus its running min/max
statistics (`prop_obj.data` and `prop_obj.data_stats`), with the dense
array kept as a cell-indexed dict initialised to zeros. -/
structure VoxData where
  data : List ((ℕ × ℕ × ℕ) × ℚ)
  stats_min : ℚ
  stats_max : ℚ
deriving DecidableEq

/-- The per-cell voxel population loop (gocad_vessel.py lines 870-886): each
element is passed through `__parse_float` with the property's no-data
marker; an unconverted (no-data) element leaves the zero cell untouched; a
converted one is stored and the running min/max updated.  The spatial
`_calc_minmax` extent bookkeeping lives in the geometry base class and is
read by no claim. -/
def voxLoop (null_val : Option ℚ) :
    List (ℕ × ℕ × ℕ) → List ℚ → VoxData → VoxData
  | [], _, acc => acc
  | c :: cs, f_arr, acc =>
    let v := f_arr.headD (mkRat 0 1)
    let res := parseFloatVal v null_val
    if res.1 then
      let fp := res.2
      let mx := if fp > acc.stats_max then fp else acc.stats_max
      let mn := if fp < acc.stats_min then fp else acc.stats_min
      voxLoop null_val cs f_arr.tail
        { data := dictSet acc.data c fp, stats_min := mn, stats_max := mx }
    else voxLoop null_val cs f_arr.tail acc

/-- Embeds the per-property body of `GOCAD_VESSEL.__read_voxel_files`
(gocad_vessel.py lines 853-886) for one registered property class of a
volume file: the byte size of the referenced binary file must equal
`data_sz * nx * ny * nz` or the whole run is `sys.exit(1)`; only then is
the zero-initialised 3-D array created and populated from the decoded
element list `f_arr`. -/
def read_voxel_prop (dims : ℕ × ℕ × ℕ) (data_sz : ℤ) (null_val : Option ℚ)
    (file_sz : ℤ) (f_arr : List ℚ) : Exc VoxData :=
  let num_voxels : ℤ := data_sz * dims.1 * dims.2.1 * dims.2.2
  if file_sz ≠ num_voxels then .exit
  else
    .ok (voxLoop null_val (cellOrder dims) f_arr
      { data := (cellOrder dims).map (fun c => (c, mkRat 0 1)),
        stats_min := floatMax, stats_max := -floatMax })

/-- Bits of one byte, most significant first — `'{0:08b}'.format(b)`
(gocad_vessel.py lines 930-933) for a byte value `b < 256`. -/
def byteBits (b : ℕ) : List Bool :=
  (List.range 8).map (fun i => b.testBit (7 - i))

/-- The `bit_mask` string of one record (gocad_vessel.py lines 927-933): a
single byte is formatted directly; a multi-byte group is concatenated from
byte index `flags_bit_size - 1` down to 0, each byte most significant bit
first. -/
def groupBits (size : ℕ) (grp : List ℕ) : List Bool :=
  if size = 1 then byteBits (grp.headD 0)
  else ((List.range size).reverse).flatMap (fun b => byteBits (grp.getD b 0))

/-- The descending `cnt` values paired with the `bit_mask` characters
(gocad_vessel.py lines 935-942): `cnt` starts at `flags_bit_size*8 - 1` and
decreases by one per bit. -/
def cellPositions (size : ℕ) : List ℕ :=
  (List.range (size * 8)).reverse

/-- Region name registered for a bit number: `self.region_dict[str(cnt)]`
(gocad_vessel.py lines 937-938), with the REGION branch (lines 750-752)
having stored `region_dict[number_token] = name_token`. -/
def regionAt (region_dict : List (String × String)) (cnt : ℕ) : Option String :=
  dictGet region_dict (toString cnt)

/-- The inner bit loop (gocad_vessel.py lines 936-942): walk the unpacked
bits with their descending positions; every set bit whose position is
registered overwrites the cell's region assignment. -/
def decodeBits (region_dict : List (String × String)) :
    List (Bool × ℕ) → Option String → Option String
  | [], acc => acc
  | (bit, cnt) :: rest, acc =>
    decodeBits region_dict rest
      (if (regionAt region_dict cnt).isSome && bit
       then regionAt region_dict cnt else acc)

/-- Region assignment of one cell's byte group (gocad_vessel.py lines
927-942): unpack the group into bits, pair them with descending positions,
and keep the last registered match. -/
def decodeCell (size : ℕ) (region_dict : List (String × String))
    (grp : List ℕ) : Option String :=
  decodeBits region_dict ((groupBits size grp).zip (cellPositions size)) none

/-- The cell loop of the flags decoder (gocad_vessel.py lines 921-944):
cells in `z`-slowest order, the flat index starting at `flags_offset`;
a cell whose group decodes to a region name is recorded in `flags_dict`. -/
def flagsLoop (size : ℕ) (region_dict : List (String × String))
    (f_arr : List (List ℕ)) :
    List (ℕ × ℕ × ℕ) → ℕ → List ((ℕ × ℕ × ℕ) × String) →
    List ((ℕ × ℕ × ℕ) × String)
  | [], _, acc => acc
  | c :: cs, f_idx, acc =>
    let acc1 :=
      match decodeCell size region_dict (f_arr.getD f_idx []) with
      | some nm => dictSet acc c nm
      | none => acc
    flagsLoop size region_dict f_arr cs (f_idx + 1) acc1

/-- Outcome of the flags-file part of `__read_voxel_files`: a populated
`flags_dict`, the non-fatal "could not process" `False` return, or
process exit. -/
inductive FlagsRes where
  | ok (flags_dict : List ((ℕ × ℕ × ℕ) × String))
  | couldNot
  | exit
deriving DecidableEq

/-- Embeds the flags-file part of `GOCAD_VESSEL.__read_voxel_files`
(gocad_vessel.py lines 893-951), for a declared flags file: a declared
`flags_array_length` different from `nx*ny*nz` returns the non-fatal
"could not process" `False` signal (lines 895-898); after that, an actual
file byte size different from `flags_bit_size * nx * ny * nz` is
`sys.exit(1)` (lines 906-910); otherwise the byte groups are decoded into
the region dict. -/
def read_flags_file (dims : ℕ × ℕ × ℕ) (flags_array_length : ℤ)
    (flags_bit_size : ℕ) (flags_offset : ℕ)
    (region_dict : List (String × String)) (file_sz : ℤ)
    (f_arr : List (List ℕ)) : FlagsRes :=
  let n : ℤ := (dims.1 : ℤ) * dims.2.1 * dims.2.2
  if flags_array_length ≠ n then .couldNot
  else if file_sz ≠ (flags_bit_size : ℤ) * n then .exit
  else .ok (flagsLoop flags_bit_size region_dict f_arr (cellOrder dims)
    flags_offset [])

/-- Whether the bit at position `p` of a byte group is set, reading the
group as the flags decoder numbers it: position `p` lives in byte `p / 8`
at intra-byte bit `p % 8`. -/
def bitSetAt (grp : List ℕ) (p : ℕ) : Bool :=
  (grp.getD (p / 8) 0).testBit (p % 8)

/-- Spec-side restatement of the region decoding (spec §4.2: every set bit
with a registered region name records the cell, "last-write-wins by
descending bit position"): since positions are visited in descending
order, the surviving match is the first set-and-registered position in
ascending order. -/
def specRegionOfCell (size : ℕ) (region_dict : List (String × String))
    (grp : List ℕ) : Option String :=
  match (List.range (size * 8)).find?
      (fun p => bitSetAt grp p && (regionAt region_dict p).isSome) with
  | some p => regionAt region_dict p
  | none => none

/-- C8: the float scanner maps the tokens `"1.#INF"` and `"INF"` to the same
largest representable finite float value (`floatMax`, the exact value of
`sys.float_info.max` — not a true infinity, which `ℚ` has no room for
anyway), and `"-1.#INF"` / `"-INF"` to its negation, for every configuration
and every no-data marker, i.e. in every parsing context that calls
`__parse_float`. -/
theorem parseFloat_infinity_tokens (cfg : Config) (null_val : Option ℚ) :
    parseFloat cfg "1.#INF" null_val = .ok (true, floatMax) ∧
    parseFloat cfg "INF" null_val = .ok (true, floatMax) ∧
    parseFloat cfg "-1.#INF" null_val = .ok (true, -floatMax) ∧
    parseFloat cfg "-INF" null_val = .ok (true, -floatMax) :=
  ⟨rfl, rfl, rfl, rfl⟩

/-- C10: the infinity spellings bypass the no-data comparison: for every
marker `m` (including `m = floatMax` itself) they convert successfully to
`±floatMax`; the equality-with-marker test fires only for tokens that go
through ordinary float conversion, as the `"-9999.0"` contrast shows. -/
theorem parseFloat_inf_bypasses_no_data (cfg : Config) (m : ℚ) :
    parseFloat cfg "INF" (some m) = .ok (true, floatMax) ∧
    parseFloat cfg "1.#INF" (some m) = .ok (true, floatMax) ∧
    parseFloat cfg "-INF" (some m) = .ok (true, -floatMax) ∧
    parseFloat cfg "-1.#INF" (some m) = .ok (true, -floatMax) ∧
    parseFloat cfg "INF" (some floatMax) = .ok (true, floatMax) ∧
    parseFloat cfg "-INF" (some (-floatMax)) = .ok (true, -floatMax) ∧
    parseFloat cfg "-9999.0" (some (-(mkRat 9999 1))) =
      .ok (false, -(mkRat 9999 1)) :=
  ⟨rfl, rfl, rfl, rfl, rfl, rfl, rfl⟩

/-- C5: for a registered property class of a volume file, a binary file
whose byte size differs from `data_sz * nx * ny * nz` makes the whole run
abort (`sys.exit(1)`), and this happens for every possible file content —
before any element of the property's 3-D data array is populated (in the
source, `prop_obj.data` is still the empty dict at that point: the
zero-initialised array is only created after the size check). -/
theorem voxel_file_size_mismatch_fatal (dims : ℕ × ℕ × ℕ) (data_sz : ℤ)
    (null_val : Option ℚ) (file_sz : ℤ)
    (h : file_sz ≠ data_sz * dims.1 * dims.2.1 * dims.2.2) :
    ∀ f_arr, read_voxel_prop dims data_sz null_val file_sz f_arr = .exit := by
  intro f_arr
  unfold read_voxel_prop
  exact if_pos h

/-- Witness for C5: a 2×1×1 volume with 4-byte elements and a 7-byte file
is rejected fatally. -/
theorem voxel_file_size_mismatch_fatal_witness :
    read_voxel_prop (2, 1, 1) 4 none 7 [] = .exit :=
  voxel_file_size_mismatch_fatal (2, 1, 1) 4 none 7 (by decide) []

/-- C6 counterexample: the claim says every size inconsistency of a
declared region-flags file is rejected non-fatally with a "could not
process" (`False`) signal; but with a consistent declared element count
(`flags_array_length = 2 = nx*ny*nz`) and an actual file byte size (5) that
differs from `flags_bit_size * nx*ny*nz = 2`, the reader calls
`sys.exit(1)` (gocad_vessel.py line 910) instead of returning `False`. -/
theorem flags_size_mismatch_counterexample :
    read_flags_file (2, 1, 1) 2 1 0 [] 5 [[8], [0]] = .exit ∧
    (FlagsRes.exit ≠ FlagsRes.couldNot) := by decide

/-- C6 (amended): a declared `flags_array_length` different from
`nx*ny*nz` is rejected non-fatally — the reader returns the "could not
process" signal; but an actual flags-file byte size different from
`flags_bit_size * nx*ny*nz` is fatal (`sys.exit(1)`). -/
theorem flags_file_size_checks (dims : ℕ × ℕ × ℕ) (fal : ℤ)
    (fbs fofs : ℕ) (rd : List (String × String)) (fsz : ℤ)
    (f_arr : List (List ℕ)) :
    (fal ≠ (dims.1 : ℤ) * dims.2.1 * dims.2.2 →
      read_flags_file dims fal fbs fofs rd fsz f_arr = .couldNot) ∧
    (fal = (dims.1 : ℤ) * dims.2.1 * dims.2.2 →
      fsz ≠ (fbs : ℤ) * ((dims.1 : ℤ) * dims.2.1 * dims.2.2) →
      read_flags_file dims fal fbs fofs rd fsz f_arr = .exit) := by
  constructor
  · intro h
    unfold read_flags_file
    exact if_pos h
  · intro h1 h2
    unfold read_flags_file
    rw [if_neg (by simp [h1]), if_pos (by simpa [h1] using h2)]

/-- Witness for C6 (amended): a declared count of 3 against 2 cells returns
the non-fatal signal; a matching declared count with a 5-byte file against
2 expected bytes exits. -/
theorem flags_file_size_checks_witness :
    read_flags_file (2, 1, 1) 3 1 0 [] 2 [[8], [0]] = .couldNot ∧
    read_flags_file (2, 1, 1) 2 1 0 [] 5 [[8], [0]] = .exit :=
  ⟨(flags_file_size_checks (2, 1, 1) 3 1 0 [] 2 [[8], [0]]).1 (by decide),
   (flags_file_size_checks (2, 1, 1) 2 1 0 [] 5 [[8], [0]]).2 (by decide) (by decide)⟩

/-- C1 (code bug, evaluated at the failing input): with vertices 1 at
(0,0,0) and 2 at (8,9,10), the line `PATOM 3 1 7.5` anchors the parsed
property at (8,9,10) — the position of vertex 2, not of the referenced
vertex 1 — because line 576 of gocad_vessel.py indexes the 0-based
`_vrtx_arr` with the 1-based `make_vertex_dict` position.  For the same
reason a `PATOM` referencing the *last* defined vertex raises `IndexError`
and (in the default `stop_on_exc=True` mode) kills the run. -/
theorem patom_anchor_off_by_one :
    processLine ⟨true, false⟩
      { initState with
        vrtx_arr := [⟨1, (mkRat 0 1, mkRat 0 1, mkRat 0 1)⟩,
                     ⟨2, (mkRat 8 1, mkRat 9 1, mkRat 10 1)⟩],
        local_props := [("PP", ⟨"PP", 1, none, []⟩)] }
      ["PATOM", "3", "1", "7.5"] =
    .ok { initState with
          seq_no := 3, seq_no_prev := 0,
          vrtx_arr := [⟨1, (mkRat 0 1, mkRat 0 1, mkRat 0 1)⟩,
                       ⟨2, (mkRat 8 1, mkRat 9 1, mkRat 10 1)⟩],
          atom_arr := [⟨3, 1⟩],
          local_props := [("PP", ⟨"PP", 1, none,
            [((mkRat 8 1, mkRat 9 1, mkRat 10 1),
              PropVal.s (mkRat 15 2))]⟩)] } ∧
    processLine ⟨true, false⟩
      { initState with vrtx_arr := [⟨1, (mkRat 0 1, mkRat 0 1, mkRat 0 1)⟩] }
      ["PATOM", "2", "1", "7.5"] = .exit := by decide

/-- C2 counterexample: the claim says a malformed `*SOLID*COLOR:` value
always sets opaque white and is never fatal.  But (i) with the default
configuration (`stop_on_exc=True`) the value `A B C` — three tokens, none a
float — reaches `__handle_exc`, which kills the run; and (ii) even in
non-fatal mode the value `0.1 0.2` — two tokens — only logs a debug message
and leaves the colour untouched (`none`, i.e. the inherited default), not
white. -/
theorem colour_fallback_counterexample :
    processHeaderLine ⟨true, false⟩ "*SOLID*COLOR: A B C" none = .exit ∧
    processHeaderLine ⟨false, false⟩ "*SOLID*COLOR: 0.1 0.2" none = .ok none ∧
    ((Exc.exit : Exc (Option Rgba)) ≠ .ok (some whiteRgba)) ∧
    ((Exc.ok (none : Option Rgba)) ≠ .ok (some whiteRgba)) := by
  refine ⟨by decide, by decide, by decide, by decide⟩

/-- C2 (amended): a colour value that splits into neither 3 nor 4
space-separated tokens (and does not start with `#`) is logged and leaves
the colour unchanged, non-fatally; a value that raises a conversion error —
an unparseable float among 3 tokens, or an empty value — goes through
`__handle_exc`, which terminates the run when `stop_on_exc` (default
`True`) or DEBUG logging is active, and only otherwise falls back to
opaque white. -/
theorem colour_malformed_behaviour (cfg : Config) (cur : Option Rgba)
    (v : String) :
    (headerColour cfg "" cur = colourExc cfg) ∧
    (v ≠ "" → pyFront v ≠ '#' →
      (pySplit v ' ').length ≠ 3 → (pySplit v ' ').length ≠ 4 →
      headerColour cfg v cur = .ok cur) ∧
    (∀ a b c, v ≠ "" → pyFront v ≠ '#' → pySplit v ' ' = [a, b, c] →
      (pyFloatOfString a = none ∨ pyFloatOfString b = none ∨
        pyFloatOfString c = none) →
      headerColour cfg v cur = colourExc cfg) ∧
    (colourExc cfg = if handleExcFatal cfg then .exit else .ok (some whiteRgba)) := by
  refine ⟨by unfold headerColour; exact if_pos rfl, ?_, ?_, rfl⟩
  · intro hne hhash h3 h4
    unfold headerColour
    rw [if_neg hne, if_pos hhash]
    simp only [if_neg h3, if_neg h4]
  · intro a b c hne hhash hsplit hfail
    unfold headerColour
    rw [if_neg hne, if_pos hhash, hsplit]
    simp only [List.length_cons, List.length_nil, List.getD_cons_zero,
      List.getD_cons_succ, ite_true]
    norm_num
    rcases hfail with hf | hf | hf <;> rw [hf] <;>
      cases pyFloatOfString a <;> cases pyFloatOfString b <;> simp

/-- Witness for C2 (amended): in non-fatal mode the two-token value
`0.1 0.2` leaves the colour unchanged, and the three-bad-token value
`A B C` falls back to opaque white. -/
theorem colour_malformed_behaviour_witness :
    headerColour ⟨false, false⟩ "0.1 0.2" none = .ok none ∧
    headerColour ⟨false, false⟩ "A B C" none = .ok (some whiteRgba) := by
  constructor
  · exact (colour_malformed_behaviour ⟨false, false⟩ none "0.1 0.2").2.1
      (by decide) (by decide) (by decide) (by decide)
  · have h := (colour_malformed_behaviour ⟨false, false⟩ none "A B C").2.2.1
      "A" "B" "C" (by decide) (by decide) (by decide) (Or.inl (by decide))
    exact h

/-- C3: an `ATOM` (or `PATOM`) line whose referenced vertex sequence number
has not been seen in this parse session is fatal (`sys.exit(1)`); one
referencing a previously seen vertex succeeds and appends an atom record
aliasing that vertex's sequence number to the topology store, updating the
running sequence counter. -/
theorem atom_reference_check (cfg : Config) (s : State) (rest : List String)
    (t1 t2 : String) (sn vn : ℤ)
    (h1 : pyIntOfString t1 = some sn) (h2 : pyIntOfString t2 = some vn) :
    (checkVertex s.vrtx_arr vn = false →
      processLine cfg s ("ATOM" :: t1 :: t2 :: rest) = .exit) ∧
    (checkVertex s.vrtx_arr vn = true →
      processLine cfg s ("ATOM" :: t1 :: t2 :: rest) =
        .ok { s with seq_no_prev := s.seq_no, seq_no := sn,
                     atom_arr := s.atom_arr ++ [⟨sn, vn⟩] }) := by
  have hd : processLine cfg s ("ATOM" :: t1 :: t2 :: rest) =
      atomBranch cfg s ("ATOM" :: t1 :: t2 :: rest) := by
    simp [processLine, skipKeywords]
  rw [hd]
  unfold atomBranch
  simp only [List.getElem?_cons_succ, List.getElem?_cons_zero,
    Option.some_bind, h1, h2, List.head?_cons]
  constructor <;> intro hcv <;> simp [hcv]

/-- Witness for C3: with vertex 1 defined, `ATOM 2 1` succeeds and appends
the aliasing record; with no vertices defined, `ATOM 2 1` kills the run. -/
theorem atom_reference_check_witness :
    processLine ⟨true, false⟩
      { initState with vrtx_arr := [⟨1, (mkRat 0 1, mkRat 0 1, mkRat 0 1)⟩] }
      ["ATOM", "2", "1"] =
      .ok { initState with
            seq_no := 2, seq_no_prev := 0,
            vrtx_arr := [⟨1, (mkRat 0 1, mkRat 0 1, mkRat 0 1)⟩],
            atom_arr := [⟨2, 1⟩] } ∧
    processLine ⟨true, false⟩ initState ["ATOM", "2", "1"] = .exit := by
  constructor
  · exact (atom_reference_check ⟨true, false⟩
      { initState with vrtx_arr := [⟨1, (mkRat 0 1, mkRat 0 1, mkRat 0 1)⟩] }
      [] "2" "1" 2 1 (by decide) (by decide)).2 (by decide)
  · exact (atom_reference_check ⟨true, false⟩ initState
      [] "2" "1" 2 1 (by decide) (by decide)).1 (by decide)

/-- C4: for a point-attached property with a configured no-data marker `m`,
a property token that parses (by ordinary float conversion) to exactly `m`
is treated as absent: `__parse_float` reports it unconverted, the
coordinate is not inserted into the property's coordinate-keyed `data`
dict, and consequently the `data_stats` min/max — computed over that dict
alone — is unaffected by it.  (A token *textually* equal to the marker
parses to the marker's value, so this covers the claim's textual-equality
case.) -/
theorem no_data_marker_treated_absent (cfg : Config) (is_patom : Bool)
    (arr : List String) (coord : ℚ × ℚ × ℚ) (nm t : String) (p : PROPS)
    (m : ℚ)
    (hsz : p.data_sz = 1) (hmk : p.no_data_marker = some m)
    (ht : arr[(if is_patom then 3 else 5)]? = some t)
    (hcn : t.take 2 ≠ "CN")
    (hv : pyFloatOfString t = some m) :
    parseFloat cfg t p.no_data_marker = .ok (false, m) ∧
    parseProps cfg arr coord is_patom [(nm, p)] = .ok [(nm, p)] ∧
    (∀ q : PROPS,
      parseProps cfg arr coord is_patom [(nm, p)] = .ok [(nm, q)] →
      dataStats q.data = dataStats p.data) := by
  have hne1 : t ≠ "1.#INF" := by
    intro h
    rw [h, show pyFloatOfString "1.#INF" = (none : Option ℚ) from by decide] at hv
    exact Option.noConfusion hv
  have hne2 : t ≠ "INF" := by
    intro h
    rw [h, show pyFloatOfString "INF" = (none : Option ℚ) from by decide] at hv
    exact Option.noConfusion hv
  have hne3 : t ≠ "-1.#INF" := by
    intro h
    rw [h, show pyFloatOfString "-1.#INF" = (none : Option ℚ) from by decide] at hv
    exact Option.noConfusion hv
  have hne4 : t ≠ "-INF" := by
    intro h
    rw [h, show pyFloatOfString "-INF" = (none : Option ℚ) from by decide] at hv
    exact Option.noConfusion hv
  have h1 : parseFloat cfg t p.no_data_marker = .ok (false, m) := by
    rw [hmk]
    unfold parseFloat
    rw [if_neg (by simp [hne1, hne2]), if_neg (by simp [hne3, hne4]), hv]
    simp
  have h2 : parseProps cfg arr coord is_patom [(nm, p)] = .ok [(nm, p)] := by
    unfold parseProps parsePropsGo
    rw [hsz]
    simp only [if_pos rfl, ht, if_neg hcn, h1]
    simp [parsePropsGo, ppCons]
  refine ⟨h1, h2, ?_⟩
  intro q hq
  rw [h2] at hq
  cases hq
  rfl

/-- Witness for C4: with marker −9999 configured, the `PATOM` property
token `-9999.0` leaves the property's data dict (and hence its stats)
unchanged. -/
theorem no_data_marker_treated_absent_witness :
    parseProps ⟨true, false⟩ ["PATOM", "1", "1", "-9999.0"]
      (mkRat 0 1, mkRat 0 1, mkRat 0 1) true
      [("G", ⟨"G", 1, some (-(mkRat 9999 1)), []⟩)] =
    .ok [("G", ⟨"G", 1, some (-(mkRat 9999 1)), []⟩)] :=
  (no_data_marker_treated_absent ⟨true, false⟩ true
    ["PATOM", "1", "1", "-9999.0"] (mkRat 0 1, mkRat 0 1, mkRat 0 1)
    "G" "-9999.0" ⟨"G", 1, some (-(mkRat 9999 1)), []⟩ (-(mkRat 9999 1))
    rfl rfl (by decide) (by decide) (by decide)).2.1

/-- C9 counterexample: the claim says a successfully parsed `SEG` line
stores the running counter, i.e. the sequence number of the most recently
parsed `VRTX`/`PVRTX`/`ATOM`/`PATOM`/`TRGL` line (or 0).  In non-fatal mode,
after `VRTX 1`, `VRTX 2` and a malformed `SEG X 2` — whose exception path
overwrites the counter with the stale `seq_no_prev` saved by the second
`VRTX` — the successfully parsed `SEG 1 2` stores sequence number 1, while
the most recently parsed vertex line carries sequence number 2. -/
theorem seg_counter_counterexample :
    runLines ⟨false, false⟩ initState
      [["VRTX", "1", "0.0", "0.0", "0.0"],
       ["VRTX", "2", "1.0", "1.0", "1.0"],
       ["SEG", "X", "2"],
       ["SEG", "1", "2"]] =
    .ok { initState with
          seq_no := 1, seq_no_prev := 1,
          vrtx_arr := [⟨1, (mkRat 0 1, mkRat 0 1, mkRat 0 1)⟩,
                       ⟨2, (mkRat 1 1, mkRat 1 1, mkRat 1 1)⟩],
          seg_arr := [⟨1, (1, 2)⟩] } ∧
    ((1 : ℤ) ≠ 2) := by decide

/-- C9 (amended): a `SEG` line never parses its own sequence number — a
successfully parsed `SEG` line appends its two integer references together
with the parser's current running counter, leaving the counter itself
unchanged, and the counter starts at 0.  The counter equals the sequence
number of the most recently parsed vertex-bearing line only in runs without
malformed lines: in non-fatal mode a malformed `SEG` line overwrites the
counter with `seq_no_prev`. -/
theorem seg_stores_running_counter (cfg : Config) (s : State)
    (rest rest2 : List String) (ta tb tx : String) (a b : ℤ)
    (ha : pyIntOfString ta = some a) (hb : pyIntOfString tb = some b)
    (hx : pyIntOfString tx = none) :
    processLine cfg s ("SEG" :: ta :: tb :: rest) =
      .ok { s with seg_arr := s.seg_arr ++ [⟨s.seq_no, (a, b)⟩] } ∧
    initState.seq_no = 0 ∧
    (handleExcFatal cfg = false →
      processLine cfg s ("SEG" :: tx :: rest2) =
        .ok { s with seq_no := s.seq_no_prev }) := by
  have hd : ∀ t1 more, processLine cfg s ("SEG" :: t1 :: more) =
      segBranch cfg s ("SEG" :: t1 :: more) := by
    intro t1 more
    simp [processLine, skipKeywords]
  refine ⟨?_, rfl, ?_⟩
  · rw [hd]
    unfold segBranch
    simp [ha, hb]
  · intro hfat
    rw [hd]
    unfold segBranch
    simp [hx, hfat]

/-- Witness for C9 (amended): from the initial state, `SEG 5 6` appends a
segment with counter 0 without touching the counter, and a malformed
`SEG X` in non-fatal mode resets the counter to `seq_no_prev = -1`. -/
theorem seg_stores_running_counter_witness :
    processLine ⟨false, false⟩ initState ["SEG", "5", "6"] =
      .ok { initState with seg_arr := [⟨0, (5, 6)⟩] } ∧
    processLine ⟨false, false⟩ initState ["SEG", "X"] =
      .ok { initState with seq_no := -1 } := by
  have h := seg_stores_running_counter ⟨false, false⟩ initState [] [] "5" "6"
    "X" 5 6 (by decide) (by decide) (by decide)
  exact ⟨h.1, h.2.2 rfl⟩

/-- The overwrite fold of the bit loop keeps the last relevant match:
walking a bit/position list is the same as looking for the first
set-and-registered entry of the reversed list. -/
theorem decodeBits_eq_find (rd : List (String × String)) (l : List (Bool × ℕ))
    (acc : Option String) :
    decodeBits rd l acc =
      match l.reverse.find? (fun q => (regionAt rd q.2).isSome && q.1) with
      | some q => regionAt rd q.2
      | none => acc := by
  induction l generalizing acc with
  | nil => rfl
  | cons x l ih =>
    obtain ⟨bit, cnt⟩ := x
    rw [decodeBits, ih, List.reverse_cons, List.find?_append]
    cases h : l.reverse.find? (fun q => (regionAt rd q.2).isSome && q.1) with
    | some q => simp [Option.or_some]
    | none =>
      simp only [Option.none_or]
      cases hc : (regionAt rd cnt).isSome && bit with
      | false => simp [List.find?, hc]
      | true => simp [List.find?, hc]

/-- The head-with-default of a list is its 0th element with default. -/
theorem headD_eq_getD (l : List ℕ) : l.headD 0 = l.getD 0 0 := by
  cases l <;> rfl

/-- The eight bits of a byte, spelled out. -/
theorem byteBits_eq (b : ℕ) :
    byteBits b = [b.testBit 7, b.testBit 6, b.testBit 5, b.testBit 4,
                  b.testBit 3, b.testBit 2, b.testBit 1, b.testBit 0] := rfl

/-- The single-byte case of the bit-mask construction agrees with the
general byte-reversed concatenation. -/
theorem groupBits_eq_flat (size : ℕ) (grp : List ℕ) :
    groupBits size grp =
      ((List.range size).reverse).flatMap (fun b => byteBits (grp.getD b 0)) := by
  unfold groupBits
  by_cases h : size = 1
  · subst h
    rw [if_pos rfl, headD_eq_getD]
    rfl
  · rw [if_neg h]

/-- Bit position `n*8 + j` of a byte group reads bit `j` of byte `n`. -/
theorem bitSetAt_mul_add (grp : List ℕ) (n j : ℕ) (hj : j < 8) :
    bitSetAt grp (n * 8 + j) = (grp.getD n 0).testBit j := by
  unfold bitSetAt
  have h1 : (n * 8 + j) / 8 = n := by omega
  have h2 : (n * 8 + j) % 8 = j := by omega
  rw [h1, h2]

/-- The unpacked bit mask of a byte group lists exactly `bitSetAt` over the
descending positions. -/
theorem groupBits_eq_map (size : ℕ) (grp : List ℕ) :
    groupBits size grp = (cellPositions size).map (fun p => bitSetAt grp p) := by
  rw [groupBits_eq_flat]
  unfold cellPositions
  induction size with
  | zero => rfl
  | succ n ih =>
    rw [List.range_succ, List.reverse_append, List.flatMap_append,
      show (n + 1) * 8 = n * 8 + 8 from by ring,
      List.range_add, List.reverse_append, List.map_append, ih]
    congr 1
    rw [← List.map_reverse,
      show (List.range 8).reverse = [7, 6, 5, 4, 3, 2, 1, 0] from rfl]
    simp only [List.reverse_singleton, List.flatMap_cons, List.flatMap_nil,
      List.map, List.append_nil]
    rw [byteBits_eq,
      bitSetAt_mul_add grp n 7 (by norm_num),
      bitSetAt_mul_add grp n 6 (by norm_num),
      bitSetAt_mul_add grp n 5 (by norm_num),
      bitSetAt_mul_add grp n 4 (by norm_num),
      bitSetAt_mul_add grp n 3 (by norm_num),
      bitSetAt_mul_add grp n 2 (by norm_num),
      bitSetAt_mul_add grp n 1 (by norm_num),
      bitSetAt_mul_add grp n 0 (by norm_num)]

/-- Pairing the bit mask with the descending positions tags every position
with its bit. -/
theorem zip_groupBits (size : ℕ) (grp : List ℕ) :
    (groupBits size grp).zip (cellPositions size) =
      (cellPositions size).map (fun p => (bitSetAt grp p, p)) := by
  rw [groupBits_eq_map]
  nth_rewrite 2 [← List.map_id (cellPositions size)]
  rw [List.zip_map']
  simp

/-- C7 core equivalence: the cell decoder — bytes unpacked most significant
bit first from the last byte of the group down, every set bit whose
descending position is registered overwriting the assignment — returns the
registered region of the lowest set-and-registered bit position, i.e. the
last match in descending position order; unregistered bits never
contribute. -/
theorem decodeCell_eq_spec (size : ℕ) (rd : List (String × String))
    (grp : List ℕ) :
    decodeCell size rd grp = specRegionOfCell size rd grp := by
  unfold decodeCell specRegionOfCell
  rw [zip_groupBits, decodeBits_eq_find, ← List.map_reverse]
  unfold cellPositions
  rw [List.reverse_reverse, List.find?_map]
  have hpred : ((fun q : Bool × ℕ => (regionAt rd q.2).isSome && q.1) ∘
      (fun p => (bitSetAt grp p, p))) =
      (fun p => bitSetAt grp p && (regionAt rd p).isSome) := by
    funext p
    simp [Function.comp, Bool.and_comm]
  rw [hpred]
  cases h : (List.range (size * 8)).find?
      (fun p => bitSetAt grp p && (regionAt rd p).isSome) with
  | none => rfl
  | some p => rfl

/-- C7: region-flag decoding.  (i) In general, the decoder equals its
specification `specRegionOfCell`: every set bit whose position is
registered in the region dict records the cell, unregistered bits are
ignored, and with several registered set bits the last match in descending
position order (the lowest such position) survives.  (ii) A one-byte-per-
cell group with bit 3 set and region "3" registered to "Shale" decodes to
"Shale"; (iii) the same byte with every *other* bit set decodes to nothing;
(iv) in a two-byte group, position 12 lives in bit 4 of the second byte;
(v) with bits 3 and 1 both set and registered, the bit-1 name (written
later, at the lower descending position) wins. -/
theorem region_flag_decoding :
    (∀ size rd grp, decodeCell size rd grp = specRegionOfCell size rd grp) ∧
    decodeCell 1 [("3", "Shale")] [8] = some "Shale" ∧
    decodeCell 1 [("3", "Shale")] [247] = none ∧
    decodeCell 2 [("12", "REG_A")] [0, 16] = some "REG_A" ∧
    decodeCell 1 [("3", "Shale"), ("1", "Sand")] [10] = some "Sand" :=
  ⟨decodeCell_eq_spec, by decide, by decide, by decide, by decide⟩

end Gocad

namespace Gocad

/-- Sanity checks of the numeric scanner on concrete tokens. -/
theorem scanner_sanity :
    pyFloatOfString "-9999.0" = some (-(mkRat 9999 1)) ∧
    pyFloatOfString "0.5" = some (mkRat 1 2) ∧
    pyFloatOfString "A" = none ∧
    pyIntOfString "13" = some 13 ∧
    pyIntOfString "1.5" = none := by
  refine ⟨by decide, by decide, by decide, by decide, by decide⟩

end Gocad
